import Mathlib

/-!
# Verification of the autocxx subclass ownership-lifecycle subsystem

A shallow embedding of `src/subclass.rs`: the holder types
(`CppSubclassRustPeerHolder`, `CppSubclassCppPeerHolder`), the construction
protocol, the three ownership-topology constructors (`new_cpp_owned`,
`new_rust_owned`, `new_self_owned`), `delete_self`, and the default-value
conveniences.

The embedding models the Rust heap explicitly:
* an `Rc<RefCell<Subclass>>` cell store, where each cell records the stored
  subclass value (`none` once destroyed), its strong reference count, and the
  `RefCell` borrow flag;
* a peer store of C++ peer objects, each holding a managed-side holder
  (`CppSubclassRustPeerHolder`);
* panics (`RefCell` borrow violations, `panic!("Peer not set up")`,
  `Option::unwrap` on a null pointer) surface as `Except Panic`.

A ghost log of `CppSubclassCppPeerHolder` setter calls (pre-state and
operation) is threaded through the world so state-transition invariants about
`set_owned` / `set_unowned` can be stated and proved.
-/

/-- The distinct fatal failures (`panic!` sites) reachable in `subclass.rs`. -/
inductive Panic
  /-- `RefCell::borrow_mut` called while a borrow is outstanding. -/
  | alreadyBorrowed
  /-- `panic!("Peer not set up")` from `CppSubclassCppPeerHolder::pin_mut`/`get`. -/
  | peerNotSetUp
  /-- `Option::unwrap` on `None` (null raw pointer / dead reference). -/
  | unwrapNone
deriving DecidableEq, Repr

/-- The borrow flag of a `RefCell`. -/
inductive BorrowFlag
  | free
  | sharedB (n : Nat)
  | mutB
deriving DecidableEq, Repr

/-- `enum CppSubclassRustPeerHolder<T> { Owned(Rc<RefCell<T>>), Unowned(Weak<RefCell<T>>) }`.
References into the cell store are by index; an `Owned` holder contributes one
strong reference to its cell's count, an `Unowned` holder contributes none. -/
inductive CppSubclassRustPeerHolder
  | Owned (id : Nat)
  | Unowned (id : Nat)
deriving DecidableEq, Repr

/-- `enum CppSubclassCppPeerHolder<CppPeer> { Empty, Owned(Box<UniquePtr<CppPeer>>), Unowned(*mut CppPeer) }`.
Peer references are indices into the peer store. -/
inductive CppSubclassCppPeerHolder
  | Empty
  | Owned (ptr : Nat)
  | Unowned (ptr : Nat)
deriving DecidableEq, Repr

/-- `impl Default for CppSubclassCppPeerHolder` (`subclass.rs` lines 78–82). -/
def cppPeerHolderDefault : CppSubclassCppPeerHolder := CppSubclassCppPeerHolder.Empty

/-- A Rust-side subclass object: the user-defined state together with the
`peer_holder` field added by `#[is_subclass]` (the `peer_holder` /
`peer_holder_mut` accessors of the `CppSubclass` trait return this field). -/
structure Subclass (A : Type) where
  user : A
  peer_holder : CppSubclassCppPeerHolder
deriving Repr

/-- One `Rc<RefCell<Subclass>>` allocation: the value (`none` once the last
strong reference is dropped and the value destroyed), the strong count, and
the `RefCell` borrow flag. -/
structure RcCell (A : Type) where
  val : Option (Subclass A)
  strong : Nat
  flag : BorrowFlag
deriving Repr

/-- The kind of a `CppSubclassCppPeerHolder` setter call, for the ghost log. -/
inductive SetterOp
  | setOwnedOp (ptr : Nat)
  | setUnownedOp (ptr : Nat)
deriving DecidableEq, Repr

/-- The C++ peer object, as far as the ownership subsystem observes it: it
holds the managed-side holder handed to its constructor, and supports
`relinquish_ownership` (the `CppSubclassCppPeer` trait). -/
structure CppPeerState where
  holder : CppSubclassRustPeerHolder
deriving DecidableEq, Repr

/-- The heap: the `Rc<RefCell<_>>` cell store, the peer store (`none` marks a
destroyed peer slot), and the ghost log of peer-holder setter calls, each
recorded with the holder state found before the write. -/
structure World (A : Type) where
  cells : List (RcCell A)
  peers : List (Option CppPeerState)
  setterLog : List (CppSubclassCppPeerHolder × SetterOp)
deriving Repr

/-- The empty heap. -/
def World.empty (A : Type) : World A := ⟨[], [], []⟩

/-- Read a cell. -/
def getCell (w : World A) (id : Nat) : Option (RcCell A) := w.cells.get? id

/-- Overwrite a cell. -/
def setCell (w : World A) (id : Nat) (c : RcCell A) : World A :=
  { w with cells := w.cells.set id c }

/-- `Rc::new(RefCell::new(v))`: allocate a fresh cell with strong count 1 and
a free borrow flag; returns the new world and the handle. -/
def rcNew (w : World A) (v : Subclass A) : World A × Nat :=
  ({ w with cells := w.cells ++ [⟨some v, 1, BorrowFlag.free⟩] }, w.cells.length)

/-- `Rc::clone`: increment the strong count. -/
def rcClone (w : World A) (id : Nat) : World A :=
  match getCell w id with
  | some c => setCell w id { c with strong := c.strong + 1 }
  | none => w

/-- Dropping a strong `Rc` handle: decrement the strong count; when it
reaches zero the stored value is destroyed. -/
def rcDropStrong (w : World A) (id : Nat) : World A :=
  match getCell w id with
  | some c =>
      if c.strong ≤ 1 then setCell w id { c with val := none, strong := 0 }
      else setCell w id { c with strong := c.strong - 1 }
  | none => w

/-- Is the allocation still alive (some strong handle exists)? -/
def rcAlive (w : World A) (id : Nat) : Bool :=
  match getCell w id with
  | some c => decide (0 < c.strong) && c.val.isSome
  | none => false

/-- `Weak::upgrade`: a new strong handle if the value is still alive. -/
def weakUpgrade (w : World A) (id : Nat) : Option Nat × World A :=
  if rcAlive w id then (some id, rcClone w id) else (none, w)

/-- `RefCell::borrow_mut`: panics unless the borrow flag is free. -/
def tryBorrowMut (w : World A) (id : Nat) : Except Panic (World A) :=
  match getCell w id with
  | some c =>
      match c.flag with
      | BorrowFlag.free => Except.ok (setCell w id { c with flag := BorrowFlag.mutB })
      | _ => Except.error Panic.alreadyBorrowed
  | none => Except.error Panic.unwrapNone

/-- Dropping the guard returned by `RefCell::borrow_mut`. -/
def releaseBorrowMut (w : World A) (id : Nat) : World A :=
  match getCell w id with
  | some c => setCell w id { c with flag := BorrowFlag.free }
  | none => w

/-- Read the subclass value currently stored in a cell. -/
def readSubclass (w : World A) (id : Nat) : Option (Subclass A) :=
  match getCell w id with
  | some c => c.val
  | none => none

/-- Apply a function to the subclass value stored in a cell (a write through
an outstanding mutable borrow). -/
def modifySubclass (w : World A) (id : Nat) (f : Subclass A → Subclass A) : World A :=
  match getCell w id with
  | some c =>
      match c.val with
      | some s => setCell w id { c with val := some (f s) }
      | none => w
  | none => w

/-! ## Managed-side holder operations (`CppSubclassRustPeerHolder`) -/

/-- `CppSubclassRustPeerHolder::get` (`subclass.rs` lines 55–60):
`Owned(strong) => Some(strong.clone())`, `Unowned(weak) => weak.upgrade()`. -/
def rustHolderGet (w : World A) :
    CppSubclassRustPeerHolder → Option Nat × World A
  | CppSubclassRustPeerHolder.Owned id => (some id, rcClone w id)
  | CppSubclassRustPeerHolder.Unowned id => weakUpgrade w id

/-- `CppSubclassRustPeerHolder::relinquish_ownership` (`subclass.rs` lines
61–68): `Owned(strong)` becomes `Unowned(Rc::downgrade(&strong))` — the
consumed strong handle is dropped, so the cell's strong count decrements —
and any other holder passes through unchanged. Total: no `Except`, no panic. -/
def rustHolderRelinquish (w : World A) :
    CppSubclassRustPeerHolder → CppSubclassRustPeerHolder × World A
  | CppSubclassRustPeerHolder.Owned id =>
      (CppSubclassRustPeerHolder.Unowned id, rcDropStrong w id)
  | h => (h, w)

/-! ## Peer-side holder operations (`CppSubclassCppPeerHolder`) -/

/-- `CppSubclassCppPeerHolder::pin_mut` (`subclass.rs` lines 85–93):
panics with "Peer not set up" on `Empty`; on `Owned` it pins the `UniquePtr`
contents (cxx panics on a null `UniquePtr`); on `Unowned` it `unwrap`s the
raw pointer (panics when null/dead). Returns the peer reference. -/
def cppHolderPinMut (w : World A) :
    CppSubclassCppPeerHolder → Except Panic Nat
  | CppSubclassCppPeerHolder.Empty => Except.error Panic.peerNotSetUp
  | CppSubclassCppPeerHolder.Owned ptr =>
      match w.peers.get? ptr with
      | some (some _) => Except.ok ptr
      | _ => Except.error Panic.unwrapNone
  | CppSubclassCppPeerHolder.Unowned ptr =>
      match w.peers.get? ptr with
      | some (some _) => Except.ok ptr
      | _ => Except.error Panic.unwrapNone

/-- `CppSubclassCppPeerHolder::get` (`subclass.rs` lines 94–100): same shape
as `pin_mut` but returns a shared peer reference. -/
def cppHolderGet (w : World A) :
    CppSubclassCppPeerHolder → Except Panic Nat
  | CppSubclassCppPeerHolder.Empty => Except.error Panic.peerNotSetUp
  | CppSubclassCppPeerHolder.Owned ptr =>
      match w.peers.get? ptr with
      | some (some _) => Except.ok ptr
      | _ => Except.error Panic.unwrapNone
  | CppSubclassCppPeerHolder.Unowned ptr =>
      match w.peers.get? ptr with
      | some (some _) => Except.ok ptr
      | _ => Except.error Panic.unwrapNone

/-- `CppSubclassCppPeerHolder::set_owned` (`subclass.rs` lines 101–103),
applied to the `peer_holder` field of the subclass stored in cell `id`:
`*self = Self::Owned(Box::new(peer))`. The pre-state of the field and the
operation are appended to the ghost setter log. -/
def setOwnedAt (w : World A) (id ptr : Nat) : World A :=
  match getCell w id with
  | some c =>
      match c.val with
      | some s =>
          let w1 := setCell w id
            { c with val := some { s with peer_holder := CppSubclassCppPeerHolder.Owned ptr } }
          { w1 with setterLog := w1.setterLog ++ [(s.peer_holder, SetterOp.setOwnedOp ptr)] }
      | none => w
  | none => w

/-- `CppSubclassCppPeerHolder::set_unowned` (`subclass.rs` lines 104–108),
applied to the `peer_holder` field of the subclass stored in cell `id`:
`*self = Self::Unowned(raw pointer into the UniquePtr's pointee)` — the raw
pointer denotes the same peer-store slot as the `UniquePtr`. Ghost-logged. -/
def setUnownedAt (w : World A) (id ptr : Nat) : World A :=
  match getCell w id with
  | some c =>
      match c.val with
      | some s =>
          let w1 := setCell w id
            { c with val := some { s with peer_holder := CppSubclassCppPeerHolder.Unowned ptr } }
          { w1 with setterLog := w1.setterLog ++ [(s.peer_holder, SetterOp.setUnownedOp ptr)] }
      | none => w
  | none => w

/-! ## Construction protocol (`CppPeerConstructor::make_peer`)

`make_peer` receives `&mut self` (a write-capable view of the subclass, live
while the constructor's `borrow_mut` guard is outstanding) and the
managed-side holder, and returns `UniquePtr<CppPeer>`. Its body is
supplied by the user or the generator, so the embedding takes it as a parameter;
it can read and write the world (and hence call back across the boundary) and
can panic. -/

/-- The type of `make_peer` implementations: world and holder in, world and
`UniquePtr<CppPeer>` (a peer-store index) out, or a panic. -/
def MakePeer (A : Type) : Type :=
  World A → CppSubclassRustPeerHolder → Except Panic (World A × Nat)

/-- Modelled from the spec: the `make_peer` implementation that the
code-generation layer produces when constructor selection is unambiguous
(`subclass.rs` has only the trait declaration). Per spec §4.4 it invokes the
foreign-base constructor, forwarding `peer_holder` into the new peer so the
peer's managed-side holder field is initialized with it; the fresh peer is
returned as an owned `UniquePtr`. -/
def defaultMakePeer : MakePeer A := fun w holder =>
  Except.ok ({ w with peers := w.peers ++ [some ⟨holder⟩] }, w.peers.length)

/-- Modelled from the spec: a `make_peer` whose foreign-base constructor
performs virtual dispatch back into the managed side (spec §5: "foreign
virtual dispatch calling back into the managed side"), where the generated
callback shim resolves the managed object through the holder it was handed
and takes a mutable borrow (`holder.get()` then `borrow_mut`) before
completing construction of the peer. -/
def reentrantMakePeer : MakePeer A := fun w holder =>
  match rustHolderGet w holder with
  | (some id, w1) =>
      match tryBorrowMut w1 id with
      | Except.error p => Except.error p
      | Except.ok w2 =>
          let w3 := releaseBorrowMut w2 id
          let w4 := rcDropStrong w3 id
          Except.ok ({ w4 with peers := w4.peers ++ [some ⟨holder⟩] }, w4.peers.length)
  | (none, _) => Except.error Panic.unwrapNone

/-! ## Topology constructors -/

/-- The type of the `peer_boxer` parameter of `make_owning_peer`:
`FnOnce(Rc<RefCell<Subclass>>) -> CppSubclassRustPeerHolder<Subclass>`,
consuming a freshly cloned strong handle. -/
def PeerBoxer (A : Type) : Type :=
  World A → Nat → CppSubclassRustPeerHolder × World A

/-- The boxer `new_rust_owned` passes (`subclass.rs` line 280):
`|me| CppSubclassRustPeerHolder::Unowned(Rc::downgrade(&me))` — downgrades
the handle and then drops it (it was moved in), so the strong count it
carried is released. -/
def boxerUnowned : PeerBoxer A := fun w id =>
  (CppSubclassRustPeerHolder.Unowned id, rcDropStrong w id)

/-- The boxer `new_self_owned` passes (`subclass.rs` line 300):
`CppSubclassRustPeerHolder::Owned` — the moved-in strong handle is kept
inside the holder. -/
def boxerOwned : PeerBoxer A := fun w id =>
  (CppSubclassRustPeerHolder.Owned id, w)

/-- `make_owning_peer` (`subclass.rs` lines 111–131):
```text
let me = Rc::new(RefCell::new(me));
let holder = peer_boxer(me.clone());
let cpp_side = peer_constructor(&mut me.as_ref().borrow_mut(), holder);
me.as_ref().borrow_mut().peer_holder_mut().set_owned(cpp_side);
me
```
The first `borrow_mut` guard is a temporary alive across the
`peer_constructor` call and dropped at the end of that statement; the second
statement takes a fresh mutable borrow for `set_owned`. Returns the strong
`Rc` handle `me`. -/
def make_owning_peer (w : World A) (me : Subclass A) (peer_constructor : MakePeer A)
    (peer_boxer : PeerBoxer A) : Except Panic (World A × Nat) :=
  let alloc := rcNew w me
  let w1 := alloc.1
  let id := alloc.2
  let w2 := rcClone w1 id
  let boxed := peer_boxer w2 id
  let holder := boxed.1
  let w3 := boxed.2
  match tryBorrowMut w3 id with
  | Except.error p => Except.error p
  | Except.ok w4 =>
      match peer_constructor w4 holder with
      | Except.error p => Except.error p
      | Except.ok (w5, cpp_side) =>
          let w6 := releaseBorrowMut w5 id
          match tryBorrowMut w6 id with
          | Except.error p => Except.error p
          | Except.ok w7 =>
              let w8 := setOwnedAt w7 id cpp_side
              let w9 := releaseBorrowMut w8 id
              Except.ok (w9, id)

/-- `CppSubclass::new_cpp_owned` (`subclass.rs` lines 264–271):
```text
let me = Rc::new(RefCell::new(me));
let holder = CppSubclassRustPeerHolder::Owned(me.clone());
let mut borrowed = me.as_ref().borrow_mut();
let mut cpp_side = borrowed.make_peer(holder);
borrowed.peer_holder_mut().set_unowned(&mut cpp_side);
cpp_side
```
The named guard `borrowed` stays alive through `make_peer` and `set_unowned`
and is dropped at the end of the function, as is the local strong handle
`me`; the owned `UniquePtr<CppPeer>` is returned. -/
def new_cpp_owned (w : World A) (me : Subclass A) (mk : MakePeer A) :
    Except Panic (World A × Nat) :=
  let alloc := rcNew w me
  let w1 := alloc.1
  let id := alloc.2
  let w2 := rcClone w1 id
  let holder := CppSubclassRustPeerHolder.Owned id
  match tryBorrowMut w2 id with
  | Except.error p => Except.error p
  | Except.ok w3 =>
      match mk w3 holder with
      | Except.error p => Except.error p
      | Except.ok (w4, cpp_side) =>
          let w5 := setUnownedAt w4 id cpp_side
          let w6 := releaseBorrowMut w5 id
          let w7 := rcDropStrong w6 id
          Except.ok (w7, cpp_side)

/-- `CppSubclass::new_rust_owned` (`subclass.rs` lines 276–282):
`make_owning_peer` with the downgrading boxer. -/
def new_rust_owned (w : World A) (me : Subclass A) (mk : MakePeer A) :
    Except Panic (World A × Nat) :=
  make_owning_peer w me mk boxerUnowned

/-- `CppSubclassSelfOwned::new_self_owned` (`subclass.rs` lines 296–302):
`make_owning_peer` with `CppSubclassRustPeerHolder::Owned` as the boxer. -/
def new_self_owned (w : World A) (me : Subclass A) (mk : MakePeer A) :
    Except Panic (World A × Nat) :=
  make_owning_peer w me mk boxerOwned

/-! ## Self-ownership teardown -/

/-- Modelled from the spec: the generated `CppSubclassCppPeer::relinquish_ownership`
implementation on the C++ peer (`subclass.rs` only declares the trait method).
Per spec §4.1 it "causes its ManagedSideHolder to be downgraded from Strong to
Weak in place", which the generated code does by replacing the peer's stored
holder with `CppSubclassRustPeerHolder::relinquish_ownership` of it. -/
def peerRelinquishOwnership (w : World A) (ptr : Nat) : World A :=
  match w.peers.get? ptr with
  | some (some p) =>
      let rel := rustHolderRelinquish w p.holder
      { rel.2 with peers := rel.2.peers.set ptr (some ⟨rel.1⟩) }
  | _ => w

/-- `CppSubclassSelfOwned::delete_self` (`subclass.rs` lines 307–309):
`self.peer().relinquish_ownership()`, where `self.peer()` is
`self.peer_holder().get()` — a shared access that panics when the holder is
`Empty`. `self` is the subclass stored in cell `id`. -/
def delete_self (w : World A) (id : Nat) : Except Panic (World A) :=
  match readSubclass w id with
  | some s =>
      match cppHolderGet w s.peer_holder with
      | Except.error p => Except.error p
      | Except.ok ptr => Except.ok (peerRelinquishOwnership w ptr)
  | none => Except.error Panic.unwrapNone

/-! ## Default-constructor conveniences -/

/-- `Default::default()` for a subclass struct defined with `#[is_subclass]`:
the user payload's default together with the derived default of the
`peer_holder` field (`cppPeerHolderDefault`, i.e. `Empty`). -/
def defaultSubclass (A : Type) [Inhabited A] : Subclass A :=
  ⟨default, cppPeerHolderDefault⟩

/-- `CppSubclassDefault::default_rust_owned` (`subclass.rs` lines 316–318):
`Self::new_rust_owned(Self::default())`. -/
def default_rust_owned (A : Type) [Inhabited A] (w : World A) (mk : MakePeer A) :
    Except Panic (World A × Nat) :=
  new_rust_owned w (defaultSubclass A) mk

/-- `CppSubclassDefault::default_cpp_owned` (`subclass.rs` lines 322–324):
`Self::new_cpp_owned(Self::default())`. -/
def default_cpp_owned (A : Type) [Inhabited A] (w : World A) (mk : MakePeer A) :
    Except Panic (World A × Nat) :=
  new_cpp_owned w (defaultSubclass A) mk

/-- `CppSubclassSelfOwnedDefault::default_self_owned` (`subclass.rs` lines
334–336): `Self::new_self_owned(Self::default())`. -/
def default_self_owned (A : Type) [Inhabited A] (w : World A) (mk : MakePeer A) :
    Except Panic (World A × Nat) :=
  new_self_owned w (defaultSubclass A) mk

/-! ## Basic store lemmas -/

theorem getCell_lt_length {A : Type} {w : World A} {id : Nat} {c : RcCell A}
    (hc : getCell w id = some c) : id < w.cells.length := by
  by_contra hlt
  rw [getCell, List.get?_eq_none.mpr (Nat.le_of_not_lt hlt)] at hc
  exact Option.noConfusion hc

theorem getCell_setCell_self {A : Type} {w : World A} {id : Nat} (c : RcCell A)
    (h : id < w.cells.length) : getCell (setCell w id c) id = some c := by
  unfold getCell setCell
  rw [List.get?_eq_getElem?]
  exact List.getElem?_set_eq_of_lt c h

theorem rcClone_eq {A : Type} {w : World A} {id : Nat} {c : RcCell A}
    (hc : getCell w id = some c) :
    rcClone w id = setCell w id { c with strong := c.strong + 1 } := by
  unfold rcClone
  rw [hc]

theorem rcDropStrong_eq {A : Type} {w : World A} {id : Nat} {c : RcCell A}
    (hc : getCell w id = some c) :
    rcDropStrong w id =
      if c.strong ≤ 1 then setCell w id { c with val := none, strong := 0 }
      else setCell w id { c with strong := c.strong - 1 } := by
  unfold rcDropStrong
  rw [hc]

theorem rcAlive_eq {A : Type} {w : World A} {id : Nat} {c : RcCell A}
    (hc : getCell w id = some c) :
    rcAlive w id = (decide (0 < c.strong) && c.val.isSome) := by
  unfold rcAlive
  rw [hc]

/-! ## Claim theorems -/

/-- C6: `CppSubclassRustPeerHolder::relinquish_ownership` maps an `Owned`
(strong) holder to `Unowned` of the same cell (the downgrade of that very
strong reference, whose consumed strong handle is dropped), returns any
`Unowned` holder unchanged together with an untouched world, and — being a
total function into holder-and-world pairs rather than `Except Panic` — never
panics; consequently it is idempotent: a second application is a no-op on
both the holder and the world. -/
theorem relinquish_ownership_spec (A : Type) (w : World A) (id : Nat)
    (h : CppSubclassRustPeerHolder) :
    rustHolderRelinquish w (CppSubclassRustPeerHolder.Owned id)
      = (CppSubclassRustPeerHolder.Unowned id, rcDropStrong w id) ∧
    rustHolderRelinquish w (CppSubclassRustPeerHolder.Unowned id)
      = (CppSubclassRustPeerHolder.Unowned id, w) ∧
    rustHolderRelinquish (rustHolderRelinquish w h).2 (rustHolderRelinquish w h).1
      = rustHolderRelinquish w h := by
  refine ⟨rfl, rfl, ?_⟩
  cases h <;> rfl

/-- C10: each default-constructor convenience is definitionally the
corresponding topology constructor applied to the type's default value
(user default plus the derived `Empty` peer holder). -/
theorem default_constructors_equiv (A : Type) [Inhabited A] (w : World A)
    (mk : MakePeer A) :
    default_rust_owned A w mk = new_rust_owned w (defaultSubclass A) mk ∧
    default_cpp_owned A w mk = new_cpp_owned w (defaultSubclass A) mk ∧
    default_self_owned A w mk = new_self_owned w (defaultSubclass A) mk :=
  ⟨rfl, rfl, rfl⟩

/-- C1: a reentrant mutable access path fails fatally instead of aliasing:
(i) during `new_cpp_owned` and during `make_owning_peer` (both its
`new_rust_owned` and `new_self_owned` instantiations) the peer constructor
runs while a mutable borrow of the Rust object is outstanding, so a callback
that resolves the managed object through its holder and needs a second
mutable borrow panics with the borrow violation; (ii) in general, a
`borrow_mut` on a cell whose borrow flag is already mutably held panics
rather than handing out a second aliasing mutable reference. -/
theorem reentrant_mutable_access_panics (A : Type) (me : Subclass A) :
    new_cpp_owned (World.empty A) me reentrantMakePeer
      = Except.error Panic.alreadyBorrowed ∧
    new_rust_owned (World.empty A) me reentrantMakePeer
      = Except.error Panic.alreadyBorrowed ∧
    new_self_owned (World.empty A) me reentrantMakePeer
      = Except.error Panic.alreadyBorrowed ∧
    (∀ (w : World A) (id : Nat) (c : RcCell A), getCell w id = some c →
      c.flag = BorrowFlag.mutB →
      tryBorrowMut w id = Except.error Panic.alreadyBorrowed) := by
  refine ⟨rfl, rfl, rfl, ?_⟩
  intro w id c hc hflag
  unfold tryBorrowMut
  rw [hc]
  simp only [hflag]

/-- Witness for C1 at concrete inputs. -/
theorem reentrant_mutable_access_panics_witness :
    (new_cpp_owned (World.empty Unit) ⟨(), cppPeerHolderDefault⟩ reentrantMakePeer
      = Except.error Panic.alreadyBorrowed) ∧
    (tryBorrowMut
        (⟨[⟨some ⟨(), cppPeerHolderDefault⟩, 1, BorrowFlag.mutB⟩], [], []⟩ : World Unit) 0
      = Except.error Panic.alreadyBorrowed) :=
  ⟨(reentrant_mutable_access_panics Unit ⟨(), cppPeerHolderDefault⟩).1,
   (reentrant_mutable_access_panics Unit ⟨(), cppPeerHolderDefault⟩).2.2.2
     _ 0 ⟨some ⟨(), cppPeerHolderDefault⟩, 1, BorrowFlag.mutB⟩ rfl rfl⟩

theorem readSubclass_setCell_self {A : Type} {w : World A} {id : Nat} (c : RcCell A)
    (h : id < w.cells.length) : readSubclass (setCell w id c) id = c.val := by
  unfold readSubclass
  rw [getCell_setCell_self c h]

theorem setOwnedAt_read {A : Type} (w : World A) (id ptr : Nat) :
    readSubclass (setOwnedAt w id ptr) id
      = (readSubclass w id).map
          (fun s => { s with peer_holder := CppSubclassCppPeerHolder.Owned ptr }) := by
  cases hc : getCell w id with
  | none => simp [setOwnedAt, readSubclass, hc]
  | some c =>
      cases hv : c.val with
      | none => simp [setOwnedAt, readSubclass, hc, hv]
      | some s =>
          have hlt : id < w.cells.length := getCell_lt_length hc
          have hc2 : w.cells[id]? = some c := by
            rw [← List.get?_eq_getElem?]
            exact hc
          simp [setOwnedAt, readSubclass, getCell, setCell, hc, hv, hc2,
            List.getElem?_set_eq_of_lt _ hlt]

theorem setUnownedAt_read {A : Type} (w : World A) (id ptr : Nat) :
    readSubclass (setUnownedAt w id ptr) id
      = (readSubclass w id).map
          (fun s => { s with peer_holder := CppSubclassCppPeerHolder.Unowned ptr }) := by
  cases hc : getCell w id with
  | none => simp [setUnownedAt, readSubclass, hc]
  | some c =>
      cases hv : c.val with
      | none => simp [setUnownedAt, readSubclass, hc, hv]
      | some s =>
          have hlt : id < w.cells.length := getCell_lt_length hc
          have hc2 : w.cells[id]? = some c := by
            rw [← List.get?_eq_getElem?]
            exact hc
          simp [setUnownedAt, readSubclass, getCell, setCell, hc, hv, hc2,
            List.getElem?_set_eq_of_lt _ hlt]

/-- C2: the peer-side holder transitions `Empty → {Owned | Unowned}` exactly
once and never back: (i) starting from the derived default (`Empty`) field,
each topology constructor performs exactly one setter call, and the holder
state found by that call is `Empty`; (ii) the holder stored afterwards is the
corresponding non-`Empty` variant; (iii) in general `set_owned` / `set_unowned`
always leave a non-`Empty` variant in the field, so no setter ever returns a
holder to `Empty`. -/
theorem peer_holder_transitions_once (A : Type) (a : A) :
    (∃ w, new_cpp_owned (World.empty A) ⟨a, cppPeerHolderDefault⟩ defaultMakePeer
        = Except.ok (w, 0) ∧
      w.setterLog = [(CppSubclassCppPeerHolder.Empty, SetterOp.setUnownedOp 0)] ∧
      readSubclass w 0 = some ⟨a, CppSubclassCppPeerHolder.Unowned 0⟩) ∧
    (∃ w, new_rust_owned (World.empty A) ⟨a, cppPeerHolderDefault⟩ defaultMakePeer
        = Except.ok (w, 0) ∧
      w.setterLog = [(CppSubclassCppPeerHolder.Empty, SetterOp.setOwnedOp 0)] ∧
      readSubclass w 0 = some ⟨a, CppSubclassCppPeerHolder.Owned 0⟩) ∧
    (∃ w, new_self_owned (World.empty A) ⟨a, cppPeerHolderDefault⟩ defaultMakePeer
        = Except.ok (w, 0) ∧
      w.setterLog = [(CppSubclassCppPeerHolder.Empty, SetterOp.setOwnedOp 0)] ∧
      readSubclass w 0 = some ⟨a, CppSubclassCppPeerHolder.Owned 0⟩) ∧
    (∀ (w : World A) (id ptr : Nat),
      readSubclass (setOwnedAt w id ptr) id
        = (readSubclass w id).map
            (fun s => { s with peer_holder := CppSubclassCppPeerHolder.Owned ptr }) ∧
      readSubclass (setUnownedAt w id ptr) id
        = (readSubclass w id).map
            (fun s => { s with peer_holder := CppSubclassCppPeerHolder.Unowned ptr }) ∧
      CppSubclassCppPeerHolder.Owned ptr ≠ CppSubclassCppPeerHolder.Empty ∧
      CppSubclassCppPeerHolder.Unowned ptr ≠ CppSubclassCppPeerHolder.Empty) := by
  refine ⟨⟨_, rfl, rfl, rfl⟩, ⟨_, rfl, rfl, rfl⟩, ⟨_, rfl, rfl, rfl⟩, ?_⟩
  intro w id ptr
  exact ⟨setOwnedAt_read w id ptr, setUnownedAt_read w id ptr,
    fun h => CppSubclassCppPeerHolder.noConfusion h,
    fun h => CppSubclassCppPeerHolder.noConfusion h⟩

/-- C3: `new_self_owned` builds the pair with a strong (`Owned`) managed-side
holder that is still strong at the end of construction (never downgraded) and
an exclusive (`Owned`) peer-side holder, forming a strong reference cycle
(the cell's strong count is 2: the returned handle plus the peer's edge);
`delete_self` calls `relinquish_ownership` on the C++ peer, downgrading the
cycle's strong managed-side reference to a weak one (and releasing the strong
count it carried). -/
theorem self_owned_cycle_and_delete_self (A : Type) (a : A) :
    ∃ w, new_self_owned (World.empty A) ⟨a, cppPeerHolderDefault⟩ defaultMakePeer
        = Except.ok (w, 0) ∧
      w.peers = [some ⟨CppSubclassRustPeerHolder.Owned 0⟩] ∧
      readSubclass w 0 = some ⟨a, CppSubclassCppPeerHolder.Owned 0⟩ ∧
      getCell w 0 = some ⟨some ⟨a, CppSubclassCppPeerHolder.Owned 0⟩, 2, BorrowFlag.free⟩ ∧
      ∃ w2, delete_self w 0 = Except.ok w2 ∧
        w2.peers = [some ⟨CppSubclassRustPeerHolder.Unowned 0⟩] ∧
        getCell w2 0
          = some ⟨some ⟨a, CppSubclassCppPeerHolder.Owned 0⟩, 1, BorrowFlag.free⟩ :=
  ⟨_, rfl, rfl, rfl, rfl, _, rfl, rfl, rfl⟩

/-- C4: `new_cpp_owned` wraps `me` in a shared cell, builds a strong
(`Owned`) managed-side holder (visible as the strong holder stored in the
constructed peer), runs the construction protocol to obtain an owned peer,
calls `set_unowned` on the peer-side holder — one transition `Empty →
Unowned`, recording the raw pointer to that very peer — and returns the owned
peer to the caller; the result is the peer-owned topology: the peer's
managed-side edge is strong (the cell's only strong count is the peer's) and
the subclass's peer-side edge is non-owning. -/
theorem new_cpp_owned_spec (A : Type) (a : A) :
    ∃ w, new_cpp_owned (World.empty A) ⟨a, cppPeerHolderDefault⟩ defaultMakePeer
        = Except.ok (w, 0) ∧
      w.peers = [some ⟨CppSubclassRustPeerHolder.Owned 0⟩] ∧
      readSubclass w 0 = some ⟨a, CppSubclassCppPeerHolder.Unowned 0⟩ ∧
      w.setterLog = [(CppSubclassCppPeerHolder.Empty, SetterOp.setUnownedOp 0)] ∧
      getCell w 0
        = some ⟨some ⟨a, CppSubclassCppPeerHolder.Unowned 0⟩, 1, BorrowFlag.free⟩ :=
  ⟨_, rfl, rfl, rfl, rfl, rfl⟩

/-- C5: `new_rust_owned` wraps `me`, builds a weak (`Unowned`) managed-side
holder up front by downgrading a freshly minted strong handle (visible as the
weak holder stored in the constructed peer and the net-unchanged strong
count), runs the construction protocol, calls `set_owned` on the peer-side
holder — one transition `Empty → Owned` — and returns the strong handle to
the caller; the result is the managed-owned topology: weak managed-side
edge, exclusive peer-side edge, and the single strong count belongs to the
returned handle. -/
theorem new_rust_owned_spec (A : Type) (a : A) :
    ∃ w, new_rust_owned (World.empty A) ⟨a, cppPeerHolderDefault⟩ defaultMakePeer
        = Except.ok (w, 0) ∧
      w.peers = [some ⟨CppSubclassRustPeerHolder.Unowned 0⟩] ∧
      readSubclass w 0 = some ⟨a, CppSubclassCppPeerHolder.Owned 0⟩ ∧
      w.setterLog = [(CppSubclassCppPeerHolder.Empty, SetterOp.setOwnedOp 0)] ∧
      getCell w 0
        = some ⟨some ⟨a, CppSubclassCppPeerHolder.Owned 0⟩, 1, BorrowFlag.free⟩ :=
  ⟨_, rfl, rfl, rfl, rfl, rfl⟩

set_option maxHeartbeats 1600000 in
/-- C9: in the self-owned topology, `delete_self` needs only shared access
and its sole effect is the peer's `relinquish_ownership`: the subclass value
is untouched — same user state, peer-side holder still the exclusive
`Owned` variant — the borrow flag and the setter log are unchanged, and the
only state that changes is the peer's managed-side holder (downgraded to
`Unowned`) together with the strong count that downgrade releases. -/
theorem delete_self_frame (A : Type) (a : A) :
    ∃ w w2, new_self_owned (World.empty A) ⟨a, cppPeerHolderDefault⟩ defaultMakePeer
        = Except.ok (w, 0) ∧
      delete_self w 0 = Except.ok w2 ∧
      readSubclass w2 0 = readSubclass w 0 ∧
      readSubclass w2 0 = some ⟨a, CppSubclassCppPeerHolder.Owned 0⟩ ∧
      (getCell w2 0).map RcCell.flag = (getCell w 0).map RcCell.flag ∧
      w2.setterLog = w.setterLog ∧
      w2.peers = [some ⟨CppSubclassRustPeerHolder.Unowned 0⟩] ∧
      (getCell w2 0).map RcCell.strong = some 1 :=
  ⟨_, _, rfl, rfl, rfl, rfl, rfl, rfl, rfl, rfl⟩

theorem weakUpgrade_fst {A : Type} (w : World A) (id : Nat) :
    (weakUpgrade w id).1 = if rcAlive w id then some id else none := by
  unfold weakUpgrade
  by_cases h : rcAlive w id <;> simp [h]

theorem getCell_rcDropStrong_self {A : Type} {w : World A} {id : Nat} {c : RcCell A}
    (hc : getCell w id = some c) :
    getCell (rcDropStrong w id) id
      = some (if c.strong ≤ 1 then { c with val := none, strong := 0 }
              else { c with strong := c.strong - 1 }) := by
  have hlt : id < w.cells.length := getCell_lt_length hc
  rw [rcDropStrong_eq hc]
  by_cases h1 : c.strong ≤ 1
  · rw [if_pos h1, if_pos h1, getCell_setCell_self _ hlt]
  · rw [if_neg h1, if_neg h1, getCell_setCell_self _ hlt]

theorem rcAlive_rcDropStrong {A : Type} {w : World A} {id : Nat} {c : RcCell A}
    (hc : getCell w id = some c) :
    rcAlive (rcDropStrong w id) id = (decide (1 < c.strong) && c.val.isSome) := by
  have hlt : id < w.cells.length := getCell_lt_length hc
  rw [rcDropStrong_eq hc]
  by_cases h1 : c.strong ≤ 1
  · rw [if_pos h1, rcAlive_eq (getCell_setCell_self _ hlt)]
    have h2 : ¬ (1 < c.strong) := by omega
    simp [h2]
  · rw [if_neg h1, rcAlive_eq (getCell_setCell_self _ hlt)]
    have h2 : (0 < c.strong - 1) ↔ (1 < c.strong) := by omega
    simp [h2]

/-- C7: `CppSubclassRustPeerHolder::get` on an `Owned` (strong) holder always
returns `Some` of a handle to the same cell, incrementing its strong count;
on an `Unowned` (weak) holder it returns `Some` exactly when the managed
object is still alive (strong count positive) and `None` otherwise. The round
trip: after `relinquish_ownership` of the `Owned` holder, `get` on the
resulting weak holder still yields the identical cell while any other strong
reference survives (`1 < strong` before the downgrade), and yields `None`
once the remaining strong references are gone — in particular after dropping
one further strong handle when exactly one remained. -/
theorem rust_holder_get_spec (A : Type) (w : World A) (id : Nat) (c : RcCell A)
    (hc : getCell w id = some c) (hv : c.val.isSome = true) :
    (rustHolderGet w (CppSubclassRustPeerHolder.Owned id)).1 = some id ∧
    getCell (rustHolderGet w (CppSubclassRustPeerHolder.Owned id)).2 id
      = some { c with strong := c.strong + 1 } ∧
    ((rustHolderGet w (CppSubclassRustPeerHolder.Unowned id)).1
      = if 0 < c.strong then some id else none) ∧
    ((rustHolderGet (rustHolderRelinquish w (CppSubclassRustPeerHolder.Owned id)).2
        (rustHolderRelinquish w (CppSubclassRustPeerHolder.Owned id)).1).1
      = if 1 < c.strong then some id else none) ∧
    ((rustHolderGet
        (rcDropStrong (rustHolderRelinquish w (CppSubclassRustPeerHolder.Owned id)).2 id)
        (rustHolderRelinquish w (CppSubclassRustPeerHolder.Owned id)).1).1
      = if 2 < c.strong then some id else none) := by
  have hlt : id < w.cells.length := getCell_lt_length hc
  refine ⟨rfl, ?_, ?_, ?_, ?_⟩
  · show getCell (rcClone w id) id = _
    rw [rcClone_eq hc, getCell_setCell_self _ hlt]
  · show (weakUpgrade w id).1 = _
    rw [weakUpgrade_fst, rcAlive_eq hc, hv]
    by_cases h : 0 < c.strong <;> simp [h]
  · show (weakUpgrade (rcDropStrong w id) id).1 = _
    rw [weakUpgrade_fst, rcAlive_rcDropStrong hc, hv]
    by_cases h : 1 < c.strong <;> simp [h]
  · show (weakUpgrade (rcDropStrong (rcDropStrong w id) id) id).1 = _
    rw [weakUpgrade_fst, rcAlive_rcDropStrong (getCell_rcDropStrong_self hc)]
    by_cases h1 : c.strong ≤ 1
    · have h3 : ¬ (2 < c.strong) := by omega
      simp [h1, h3]
    · by_cases h2 : c.strong ≤ 2
      · have h4 : ¬ (1 < c.strong - 1) := by omega
        have h3 : ¬ (2 < c.strong) := by omega
        simp [h1, h4, h3]
      · have h4 : 1 < c.strong - 1 := by omega
        have h3 : 2 < c.strong := by omega
        simp [h1, h4, h3, hv]

/-- Witness for C7 at a concrete world: one cell holding a unit subclass with
strong count 2. -/
theorem rust_holder_get_spec_witness :
    (rustHolderGet
        (⟨[⟨some ⟨(), cppPeerHolderDefault⟩, 2, BorrowFlag.free⟩], [], []⟩ : World Unit)
        (CppSubclassRustPeerHolder.Owned 0)).1 = some 0 :=
  (rust_holder_get_spec Unit
      ⟨[⟨some ⟨(), cppPeerHolderDefault⟩, 2, BorrowFlag.free⟩], [], []⟩ 0
      ⟨some ⟨(), cppPeerHolderDefault⟩, 2, BorrowFlag.free⟩ rfl rfl).1

set_option maxHeartbeats 1600000 in
/-- C8: `pin_mut` and `get` on a peer-side holder fail fatally with the
"Peer not set up" panic exactly when the holder is `Empty`: on `Empty` both
always panic, while on an `Owned` or `Unowned` holder whose peer slot is live
both succeed; and after construction through any of the three topology
constructors the stored holder is non-`Empty` with a live peer, so both
accessors succeed without fatal failure. -/
theorem peer_accessors_spec (A : Type) (a : A) (w : World A) :
    (cppHolderPinMut w CppSubclassCppPeerHolder.Empty
      = Except.error Panic.peerNotSetUp) ∧
    (cppHolderGet w CppSubclassCppPeerHolder.Empty
      = Except.error Panic.peerNotSetUp) ∧
    (∀ ptr p, w.peers.get? ptr = some (some p) →
      cppHolderPinMut w (CppSubclassCppPeerHolder.Owned ptr) = Except.ok ptr ∧
      cppHolderPinMut w (CppSubclassCppPeerHolder.Unowned ptr) = Except.ok ptr ∧
      cppHolderGet w (CppSubclassCppPeerHolder.Owned ptr) = Except.ok ptr ∧
      cppHolderGet w (CppSubclassCppPeerHolder.Unowned ptr) = Except.ok ptr) ∧
    (∃ w1, new_cpp_owned (World.empty A) ⟨a, cppPeerHolderDefault⟩ defaultMakePeer
        = Except.ok (w1, 0) ∧
      ∃ s, readSubclass w1 0 = some s ∧
        (cppHolderPinMut w1 s.peer_holder).isOk = true ∧
        (cppHolderGet w1 s.peer_holder).isOk = true) ∧
    (∃ w1, new_rust_owned (World.empty A) ⟨a, cppPeerHolderDefault⟩ defaultMakePeer
        = Except.ok (w1, 0) ∧
      ∃ s, readSubclass w1 0 = some s ∧
        (cppHolderPinMut w1 s.peer_holder).isOk = true ∧
        (cppHolderGet w1 s.peer_holder).isOk = true) ∧
    (∃ w1, new_self_owned (World.empty A) ⟨a, cppPeerHolderDefault⟩ defaultMakePeer
        = Except.ok (w1, 0) ∧
      ∃ s, readSubclass w1 0 = some s ∧
        (cppHolderPinMut w1 s.peer_holder).isOk = true ∧
        (cppHolderGet w1 s.peer_holder).isOk = true) := by
  refine ⟨rfl, rfl, ?_, ⟨_, rfl, ⟨_, rfl, rfl, rfl⟩⟩, ⟨_, rfl, ⟨_, rfl, rfl, rfl⟩⟩,
    ⟨_, rfl, ⟨_, rfl, rfl, rfl⟩⟩⟩
  intro ptr p hp
  have hp2 : w.peers[ptr]? = some (some p) := by
    rw [← List.get?_eq_getElem?]
    exact hp
  simp [cppHolderPinMut, cppHolderGet, hp2]

/-- Witness for C8 at a concrete world holding one live peer. -/
theorem peer_accessors_spec_witness :
    cppHolderPinMut
        (⟨[], [some ⟨CppSubclassRustPeerHolder.Owned 0⟩], []⟩ : World Unit)
        (CppSubclassCppPeerHolder.Owned 0) = Except.ok 0 :=
  ((peer_accessors_spec Unit ()
      ⟨[], [some ⟨CppSubclassRustPeerHolder.Owned 0⟩], []⟩).2.2.1
    0 ⟨CppSubclassRustPeerHolder.Owned 0⟩ rfl).1

/-- Witness for C2: the concrete `new_cpp_owned` run at the unit payload. -/
theorem peer_holder_transitions_once_witness :
    ∃ w, new_cpp_owned (World.empty Unit) ⟨(), cppPeerHolderDefault⟩ defaultMakePeer
        = Except.ok (w, 0) ∧
      w.setterLog = [(CppSubclassCppPeerHolder.Empty, SetterOp.setUnownedOp 0)] ∧
      readSubclass w 0 = some ⟨(), CppSubclassCppPeerHolder.Unowned 0⟩ :=
  (peer_holder_transitions_once Unit ()).1

/-- Witness for C10 at concrete inputs. -/
theorem default_constructors_equiv_witness :
    default_rust_owned Unit (World.empty Unit) defaultMakePeer
      = new_rust_owned (World.empty Unit) (defaultSubclass Unit) defaultMakePeer :=
  (default_constructors_equiv Unit (World.empty Unit) defaultMakePeer).1
